import Mathlib

/-
Verification development for the jobstream matching core.

The definitions below are a shallow embedding of the three service modules
(services/resume_parser.py, services/ats_scorer.py, services/job_matcher.py).
Python floats are modelled exactly as rationals; Python round(x, 1) is
modelled as exact round half to even at the first decimal place (pyRound1
below), the tie rule CPython applies to the underlying binary value; on every
concrete input evaluated below the intermediate values are exactly
representable binary fractions or the rounding is not at a tie, so the exact
model and the float computation agree there.  Character classes are the ASCII
fragments exercised by the repository data: word characters are [A-Za-z0-9_],
whitespace is space, tab, CR, LF.
-/

/-- Python regex word character class, restricted to ASCII. -/
def isWordChar (c : Char) : Bool := c.isAlpha || c.isDigit || c == '_'

/-- Python str.lower for ASCII text. -/
def lowerStr (s : String) : String := String.mk (s.data.map Char.toLower)

/-- Maximal runs of word characters, accumulator-based helper. -/
def wordRunsAux : List Char → List Char → List (List Char)
  | [], acc => if acc = [] then [] else [acc.reverse]
  | c :: cs, acc =>
    if isWordChar c then wordRunsAux cs (c :: acc)
    else if acc = [] then wordRunsAux cs []
    else acc.reverse :: wordRunsAux cs []

/-- Maximal runs of word characters of a text. -/
def wordRuns (cs : List Char) : List (List Char) := wordRunsAux cs []

/-- Stop-word list of the keyword extractor (ats_scorer.py lines 91-94). -/
def stop_words : List String :=
  ["and", "the", "is", "in", "at", "of", "or", "for", "with", "to", "a", "an",
   "as", "by", "on", "are", "be", "will", "that", "this", "from", "it", "we", "us"]

/-- Keyword extraction of ATSScorer (ats_scorer.py lines 88-96): all matches of
boundary-delimited alphabetic tokens of length at least 3 in the lower-cased
text.  Such a match is exactly a maximal word-character run that is purely
alphabetic and of length at least 3: a shorter alphabetic piece of a run is not
flanked by boundaries.  Stop words are removed and the result is taken as a
set, modelled as a deduplicated list. -/
def extract_keywords (text : String) : List String :=
  let runs := wordRuns (lowerStr text).data
  let words := runs.filter (fun r => decide (3 ≤ r.length) && r.all Char.isAlpha)
  ((words.map (fun r => String.mk r)).filter (fun w => !(stop_words.contains w))).dedup

/-- Overlap percentage of ATSScorer (ats_scorer.py lines 98-103): percentage of
set_a found in set_b, 0 for empty set_a.  Both arguments are deduplicated lists
standing for sets. -/
def calculate_overlap (set_a set_b : List String) : ℚ :=
  if set_a = [] then 0
  else ((set_a.filter (fun w => set_b.contains w)).length : ℚ) / (set_a.length : ℚ) * 100

/-- Job-text skill extraction of ATSScorer (ats_scorer.py line 123): the body
executes an unconditional return of the empty set; the skill-matching code
after that return statement is unreachable dead code. -/
def extract_skills_from_text (_text : String) (_known_skills : List String) : List String := []

/-- Numeric value of a captured digit run, as Python int() of the group. -/
def natOfDigits (ds : List Char) : Nat :=
  ds.foldl (fun n c => n * 10 + (c.toNat - 48)) 0

/-- One attempted match of the years pattern (digits, optional plus sign,
optional whitespace, the literal word year, optional trailing s) at the head of
the text.  Returns the captured integer and the text after the whole match.
The digit run is maximal: a shorter run would have to be followed by a further
digit, which the rest of the pattern cannot consume. -/
def matchYearsAt (cs : List Char) : Option (Nat × List Char) :=
  let ds := cs.takeWhile Char.isDigit
  if ds = [] then none
  else
    let r1 := cs.drop ds.length
    let r2 := match r1 with
      | '+' :: t => t
      | _ => r1
    let r3 := r2.dropWhile Char.isWhitespace
    match r3 with
    | 'y' :: 'e' :: 'a' :: 'r' :: t =>
      match t with
      | 's' :: t2 => some (natOfDigits ds, t2)
      | _ => some (natOfDigits ds, t)
    | _ => none

/-- Left-to-right scan collecting all matches of the years pattern: on a match
continue after it, otherwise advance one character.  Fuel equals the text
length; every recursive step consumes at least one character, so the fuel never
runs out before the text does. -/
def findYearsAux : Nat → List Char → List Nat
  | 0, _ => []
  | _, [] => []
  | fuel + 1, c :: cs =>
    match matchYearsAt (c :: cs) with
    | some (n, rest) => n :: findYearsAux fuel rest
    | none => findYearsAux fuel cs

/-- All captured integers of the years pattern in a text. -/
def findYears (text : String) : List Nat := findYearsAux text.data.length text.data

/-- Required-years extraction of ATSScorer (ats_scorer.py lines 144-152):
minimum captured integer of the years pattern, 0 when there is no match (min
of an empty sequence raises in the source and the bare except returns 0). -/
def extract_years_req (text : String) : Nat :=
  match findYears text with
  | [] => 0
  | m :: ms => ms.foldl Nat.min m

/-- Parsed resume record produced by the extract_info method of ResumeParser.
The email field of the source dictionary is omitted here: no scoring or
ranking code and no claim reads it. -/
structure ResumeData where
  raw_text : String
  skills : List String
  years_experience : Nat
  word_count : Nat
deriving DecidableEq

/-- Skill vocabulary COMMON_SKILLS of ResumeParser, in source order
(resume_parser.py lines 13-21). -/
def COMMON_SKILLS : List String :=
  ["python", "java", "c++", "javascript", "typescript", "react", "angular",
   "vue", "node.js", "django", "flask", "fastapi", "sql", "mysql", "postgresql",
   "mongodb", "aws", "azure", "gcp", "docker", "kubernetes", "git", "ci/cd",
   "machine learning", "deep learning", "nlp", "pytorch", "tensorflow",
   "scikit-learn", "pandas", "numpy", "data analysis", "rest api", "graphql",
   "html", "css", "sass", "less", "redux", "mobx", "next.js", "nuxt.js",
   "elasticsearch", "redis", "rabbitmq", "kafka", "linux", "bash", "shell"]

/-- Whether the character at index i is a word character; out of range counts
as not a word character. -/
def isWordAt (cs : List Char) (i : Nat) : Bool :=
  match cs.get? i with
  | some c => isWordChar c
  | none => false

/-- Python regex boundary assertion at position i: word-character-ness changes
between the character before the position and the character at it. -/
def boundaryAt (cs : List Char) (i : Nat) : Bool :=
  (if i = 0 then false else isWordAt cs (i - 1)) != isWordAt cs i

/-- Match of the escaped literal pattern with boundary assertions on both
sides at position i of the text. -/
def matchWordAt (cs pat : List Char) (i : Nat) : Bool :=
  ((cs.drop i).take pat.length == pat) && boundaryAt cs i && boundaryAt cs (i + pat.length)

/-- Search for the escaped literal pattern with boundary assertions on both
sides anywhere in the text, as in the skill detection of resume_parser.py
lines 71-74. -/
def searchWord (cs pat : List Char) : Bool :=
  (List.range (cs.length + 1)).any (fun i => matchWordAt cs pat i)

/-- Insertion step of Python sorted over strings. -/
def insertStr (x : String) : List String → List String
  | [] => [x]
  | y :: ys => if x < y then x :: y :: ys else y :: insertStr x ys

/-- Python sorted over strings, lexicographic by code point. -/
def sortStrings : List String → List String
  | [] => []
  | x :: xs => insertStr x (sortStrings xs)

/-- Helper of Python str.split with no separator: cut at whitespace, drop
empty pieces. -/
def splitWsAux : List Char → List Char → List String
  | [], acc => if acc = [] then [] else [String.mk acc.reverse]
  | c :: cs, acc =>
    if c.isWhitespace then
      if acc = [] then splitWsAux cs []
      else String.mk acc.reverse :: splitWsAux cs []
    else splitWsAux cs (c :: acc)

/-- Python str.split with no separator: whitespace-delimited tokens. -/
def pySplit (s : String) : List String := splitWsAux s.data []

/-- The extract_info method of ResumeParser (resume_parser.py lines 65-98):
skill detection over COMMON_SKILLS via boundary search in the lower-cased
text with the found set sorted, years estimation as the maximum captured years
figure below 40 (max of an empty sequence raises in the source and the bare
except leaves 0, which the fold over 0 reproduces), and word count via
str.split. -/
def extract_info (text : String) : ResumeData :=
  let text_lower := lowerStr text
  let found_skills := COMMON_SKILLS.filter (fun sk => searchWord text_lower.data sk.data)
  let years_matches := findYears text_lower
  let max_years := (years_matches.filter (fun y => y < 40)).foldl Nat.max 0
  { raw_text := text
    skills := sortStrings found_skills.dedup
    years_experience := max_years
    word_count := (pySplit text).length }

/-- Breakdown part of the score dictionary. -/
structure ScoreBreakdown where
  keywords : ℚ
  skills : ℚ
  experience : ℚ

/-- Result dictionary of the calculate_score method of ATSScorer. -/
structure ScoreResult where
  total_score : ℚ
  breakdown : ScoreBreakdown
  missing_skills : List String
  matched_skills : List String

/-- Round half to even to the nearest integer, the tie rule of Python round. -/
def rhe (q : ℚ) : ℤ :=
  if q - ⌊q⌋ < 1/2 then ⌊q⌋
  else if 1/2 < q - ⌊q⌋ then ⌊q⌋ + 1
  else if ⌊q⌋ % 2 = 0 then ⌊q⌋ else ⌊q⌋ + 1

/-- Python round(x, 1): round half to even at the first decimal place. -/
def pyRound1 (q : ℚ) : ℚ := (rhe (q * 10) : ℚ) / 10

/-- The calculate_score method of ATSScorer (ats_scorer.py lines 9-86).  Sets
are modelled as deduplicated lists; the weights 0.4, 0.35 and 0.25 are the
exact rationals. -/
def calculate_score (resume_data : ResumeData) (job_description : String) : ScoreResult :=
  let job_text_lower := lowerStr job_description
  let job_keywords := extract_keywords job_description
  let resume_keywords := extract_keywords resume_data.raw_text
  let keyword_match_score := calculate_overlap job_keywords resume_keywords
  let resume_skills := resume_data.skills.dedup
  let jd_skills := extract_skills_from_text job_text_lower resume_data.skills
  let skill_match_score :=
    if jd_skills = [] then keyword_match_score
    else ((resume_skills.filter (fun s => jd_skills.contains s)).length : ℚ) /
      (jd_skills.length : ℚ) * 100
  let jd_years := extract_years_req job_text_lower
  let resume_years := resume_data.years_experience
  let exp_score : ℚ :=
    if 0 < jd_years then
      if jd_years ≤ resume_years then 100
      else (resume_years : ℚ) / (jd_years : ℚ) * 100
    else min 100 ((resume_data.word_count : ℚ) / 500 * 100)
  let total_score :=
    keyword_match_score * (4/10) + skill_match_score * (35/100) + exp_score * (25/100)
  { total_score := pyRound1 total_score
    breakdown :=
      { keywords := pyRound1 keyword_match_score
        skills := pyRound1 skill_match_score
        experience := pyRound1 exp_score }
    missing_skills := jd_skills.filter (fun s => !(resume_skills.contains s))
    matched_skills := resume_skills.filter (fun s => jd_skills.contains s) }

/-- One row of the jobs data frame, restricted to the fields read by the
match_jobs method of JobMatcher; per the loose record schema, absent fields
are empty strings. -/
structure JobRecord where
  title : String
  skills : String
  experience : String
deriving DecidableEq

/-- Job text synthesized by match_jobs (job_matcher.py line 39). -/
def jobText (j : JobRecord) : String :=
  j.title ++ " " ++ j.skills ++ " " ++ j.experience

/-- Score attached to one job row by match_jobs. -/
def matchScoreOf (resume_data : ResumeData) (j : JobRecord) : ℚ :=
  (calculate_score resume_data (jobText j)).total_score

/-- Insertion step of the descending sort on scores; a new element goes after
every element of equal or larger score, so the insertion is stable. -/
def insertScored (x : JobRecord × ℚ) : List (JobRecord × ℚ) → List (JobRecord × ℚ)
  | [] => [x]
  | y :: ys => if y.2 < x.2 then x :: y :: ys else y :: insertScored x ys

/-- Sort by score descending.  The source delegates ordering to the pandas
sort_values method under its default sort kind, whose order between equal keys
is not documented; this embedding fixes a stable insertion sort, and no
settled claim below depends on the relative order of equal scores. -/
def sortScoredDesc : List (JobRecord × ℚ) → List (JobRecord × ℚ)
  | [] => []
  | y :: ys => insertScored y (sortScoredDesc ys)

/-- The match_jobs method of JobMatcher (job_matcher.py lines 13-50): score
every row, keep rows with score at least threshold (source default 50.0),
sort by score descending.  On an empty frame the source returns the input
frame, which is empty; the falsy-resume guard of the source is not modelled
because a ResumeData record is never falsy. -/
def match_jobs (resume_data : ResumeData) (jobs : List JobRecord)
    (threshold : ℚ := 50) : List (JobRecord × ℚ) :=
  if jobs = [] then []
  else
    let scored := jobs.map (fun j => (j, matchScoreOf resume_data j))
    sortScoredDesc (scored.filter (fun p => threshold ≤ p.2))

/-- Resume text of the end-to-end scenario of the spec. -/
def resume1 : String := "5 years of experience with Python, React and AWS. jane@x.com"

/-- Job text of the end-to-end scenario of the spec. -/
def job1 : String :=
  "Looking for a Python developer, 3+ years required, skills: python, react, docker"

/-- Resume record with every field empty or zero. -/
def emptyResume : ResumeData :=
  { raw_text := "", skills := [], years_experience := 0, word_count := 0 }

/-- Job row with every field empty. -/
def blankJob : JobRecord := { title := "", skills := "", experience := "" }

/-- Profile for the weighted-sum tolerance counterexample: one keyword
(years), 9 years of experience, 2 words. -/
def resume8 : ResumeData := extract_info "9 years"

/-- Job text for the weighted-sum tolerance counterexample: 16 distinct
keywords of which exactly one (years) also occurs in resume8, and a stated
16-year requirement, so the keyword score is 6.25 and the experience score is
56.25, both rounding ties. -/
def job8 : String := "16 years aaa bbb ccc ddd eee fff ggg hhh iii jjj kkk lll mmm nnn ooo"

/- Helper lemmas.  The six unfolding equations below hold by rfl: the job-text
skill extraction reduces to the empty list, so the skill component reduces to
the keyword component and both skill lists reduce to filters that keep
nothing. -/

theorem calc_total_eq (rd : ResumeData) (jt : String) :
    (calculate_score rd jt).total_score =
      pyRound1 (calculate_overlap (extract_keywords jt) (extract_keywords rd.raw_text) * (4/10) +
        calculate_overlap (extract_keywords jt) (extract_keywords rd.raw_text) * (35/100) +
        (if 0 < extract_years_req (lowerStr jt) then
          (if extract_years_req (lowerStr jt) ≤ rd.years_experience then (100:ℚ)
           else (rd.years_experience : ℚ) / (extract_years_req (lowerStr jt) : ℚ) * 100)
         else min 100 ((rd.word_count : ℚ) / 500 * 100)) * (25/100)) := rfl

theorem calc_bd_keywords_eq (rd : ResumeData) (jt : String) :
    (calculate_score rd jt).breakdown.keywords =
      pyRound1 (calculate_overlap (extract_keywords jt) (extract_keywords rd.raw_text)) := rfl

theorem calc_bd_skills_eq (rd : ResumeData) (jt : String) :
    (calculate_score rd jt).breakdown.skills =
      pyRound1 (calculate_overlap (extract_keywords jt) (extract_keywords rd.raw_text)) := rfl

theorem calc_bd_exp_eq (rd : ResumeData) (jt : String) :
    (calculate_score rd jt).breakdown.experience =
      pyRound1 (if 0 < extract_years_req (lowerStr jt) then
          (if extract_years_req (lowerStr jt) ≤ rd.years_experience then (100:ℚ)
           else (rd.years_experience : ℚ) / (extract_years_req (lowerStr jt) : ℚ) * 100)
         else min 100 ((rd.word_count : ℚ) / 500 * 100)) := rfl

theorem calc_matched_eq (rd : ResumeData) (jt : String) :
    (calculate_score rd jt).matched_skills = rd.skills.dedup.filter (fun _ => false) := rfl

theorem calc_missing_eq (rd : ResumeData) (jt : String) :
    (calculate_score rd jt).missing_skills = [] := rfl

theorem filterFalseNil (l : List String) : l.filter (fun _ => false) = [] := by
  induction l with
  | nil => rfl
  | cons a t ih => simp [List.filter, ih]

theorem rhe_floor_le (q : ℚ) : ⌊q⌋ ≤ rhe q := by
  unfold rhe; split_ifs <;> omega

theorem rhe_le (q : ℚ) (n : ℤ) (h : q ≤ (n : ℚ)) : rhe q ≤ n := by
  have hfl : ⌊q⌋ ≤ n := by
    have := Int.floor_le_floor h
    simpa using this
  unfold rhe
  split_ifs with h1 h2 h3
  · exact hfl
  · have hq : (⌊q⌋ : ℚ) < q := by linarith
    have hqn : (⌊q⌋ : ℚ) < (n : ℚ) := lt_of_lt_of_le hq h
    have : ⌊q⌋ < n := by exact_mod_cast hqn
    omega
  · exact hfl
  · have hq : (⌊q⌋ : ℚ) < q := by linarith
    have hqn : (⌊q⌋ : ℚ) < (n : ℚ) := lt_of_lt_of_le hq h
    have : ⌊q⌋ < n := by exact_mod_cast hqn
    omega

theorem pyRound1_nonneg (q : ℚ) (h : 0 ≤ q) : 0 ≤ pyRound1 q := by
  unfold pyRound1
  have h1 : (0:ℤ) ≤ ⌊q * 10⌋ := Int.floor_nonneg.mpr (by positivity)
  have h2 : (0:ℤ) ≤ rhe (q * 10) := le_trans h1 (rhe_floor_le _)
  have h3 : (0:ℚ) ≤ (rhe (q * 10) : ℚ) := by exact_mod_cast h2
  linarith

theorem pyRound1_le_100 (q : ℚ) (h : q ≤ 100) : pyRound1 q ≤ 100 := by
  unfold pyRound1
  have h1 : rhe (q * 10) ≤ (1000:ℤ) := rhe_le _ _ (by push_cast; linarith)
  have h2 : ((rhe (q * 10)) : ℚ) ≤ 1000 := by exact_mod_cast h1
  linarith

theorem rhe_abs_sub (q : ℚ) : |(rhe q : ℚ) - q| ≤ 1/2 := by
  have h1 : (⌊q⌋ : ℚ) ≤ q := Int.floor_le q
  have h2 : q < ⌊q⌋ + 1 := Int.lt_floor_add_one q
  unfold rhe
  split_ifs with ha hb hc <;> rw [abs_le] <;> constructor <;> push_cast <;> linarith

theorem pyRound1_abs_sub (q : ℚ) : |pyRound1 q - q| ≤ 1/20 := by
  have h := rhe_abs_sub (q * 10)
  unfold pyRound1
  have he : (rhe (q * 10) : ℚ) / 10 - q = ((rhe (q * 10) : ℚ) - q * 10) / 10 := by ring
  rw [he, abs_div]
  rw [show |(10:ℚ)| = 10 by norm_num]
  linarith

theorem weighted_round_close (k s e : ℚ) :
    |pyRound1 (k * (4/10) + s * (35/100) + e * (25/100)) -
      (pyRound1 k * (4/10) + pyRound1 s * (35/100) + pyRound1 e * (25/100))| ≤ 1/10 := by
  have hT := pyRound1_abs_sub (k * (4/10) + s * (35/100) + e * (25/100))
  have hk := pyRound1_abs_sub k
  have hs := pyRound1_abs_sub s
  have he := pyRound1_abs_sub e
  rw [abs_le] at hT hk hs he ⊢
  obtain ⟨hT1, hT2⟩ := hT
  obtain ⟨hk1, hk2⟩ := hk
  obtain ⟨hs1, hs2⟩ := hs
  obtain ⟨he1, he2⟩ := he
  constructor <;> linarith

theorem calculate_overlap_nonneg (a b : List String) : 0 ≤ calculate_overlap a b := by
  unfold calculate_overlap
  split_ifs
  · norm_num
  · positivity

theorem calculate_overlap_le_100 (a b : List String) : calculate_overlap a b ≤ 100 := by
  unfold calculate_overlap
  split_ifs with h
  · norm_num
  · have hlen : 0 < a.length := List.length_pos.mpr h
    have h0 : (0:ℚ) < (a.length : ℚ) := by exact_mod_cast hlen
    have hle : ((a.filter (fun w => b.contains w)).length : ℚ) ≤ (a.length : ℚ) := by
      exact_mod_cast List.length_filter_le _ _
    rw [div_mul_eq_mul_div, div_le_iff₀ h0]
    linarith

theorem exp_expr_bounds (jy ry wc : Nat) :
    0 ≤ (if 0 < jy then (if jy ≤ ry then (100:ℚ) else (ry : ℚ) / (jy : ℚ) * 100)
         else min 100 ((wc : ℚ) / 500 * 100)) ∧
    (if 0 < jy then (if jy ≤ ry then (100:ℚ) else (ry : ℚ) / (jy : ℚ) * 100)
         else min 100 ((wc : ℚ) / 500 * 100)) ≤ 100 := by
  split_ifs with h1 h2
  · norm_num
  · have h0 : (0:ℚ) < (jy : ℚ) := by exact_mod_cast h1
    have hle : (ry : ℚ) ≤ (jy : ℚ) := by exact_mod_cast le_of_lt (not_le.mp h2)
    constructor
    · positivity
    · rw [div_mul_eq_mul_div, div_le_iff₀ h0]
      linarith
  · constructor
    · exact le_min (by norm_num) (by positivity)
    · exact min_le_left _ _

theorem total_bounds_aux (k s e : ℚ) (hk0 : 0 ≤ k) (hk1 : k ≤ 100)
    (hs0 : 0 ≤ s) (hs1 : s ≤ 100) (he0 : 0 ≤ e) (he1 : e ≤ 100) :
    0 ≤ pyRound1 (k * (4/10) + s * (35/100) + e * (25/100)) ∧
      pyRound1 (k * (4/10) + s * (35/100) + e * (25/100)) ≤ 100 := by
  constructor
  · exact pyRound1_nonneg _ (by linarith)
  · exact pyRound1_le_100 _ (by linarith)

theorem mem_insertScored (x p : JobRecord × ℚ) (l : List (JobRecord × ℚ)) :
    p ∈ insertScored x l ↔ p = x ∨ p ∈ l := by
  induction l with
  | nil => simp [insertScored]
  | cons y t ih =>
    unfold insertScored
    split_ifs with h
    · simp [List.mem_cons]
    · simp only [List.mem_cons, ih]
      tauto

theorem mem_sortScoredDesc (p : JobRecord × ℚ) (l : List (JobRecord × ℚ)) :
    p ∈ sortScoredDesc l ↔ p ∈ l := by
  induction l with
  | nil => simp [sortScoredDesc]
  | cons y t ih => simp [sortScoredDesc, mem_insertScored, ih]

theorem foldlMaxLt (l : List Nat) (a : Nat) (ha : a < 40) (hl : ∀ x ∈ l, x < 40) :
    l.foldl Nat.max a < 40 := by
  induction l generalizing a with
  | nil => simpa using ha
  | cons x t ih =>
    simp only [List.foldl_cons]
    apply ih
    · exact Nat.max_lt.mpr ⟨ha, hl x (by simp)⟩
    · exact fun y hy => hl y (by simp [hy])

/-- C1: on the end-to-end scenario (resume1 scored against job1) the code
returns empty matched_skills and empty missing_skills — not the sets named by
the claim — while the experience breakdown is 100 as claimed.  This theorem
evaluates the code at the failing input of the claim. -/
theorem C1_end_to_end_eval :
    (calculate_score (extract_info resume1) job1).matched_skills = [] ∧
    (calculate_score (extract_info resume1) job1).missing_skills = [] ∧
    (calculate_score (extract_info resume1) job1).breakdown.experience = 100 := by
  refine ⟨?_, calc_missing_eq _ _, ?_⟩
  · rw [calc_matched_eq]
    exact filterFalseNil _
  · rw [calc_bd_exp_eq]
    have h1 : extract_years_req (lowerStr job1) = 3 := by decide
    have h2 : (extract_info resume1).years_experience = 5 := by decide
    rw [h1, h2]
    norm_num [pyRound1, rhe]

/-- C2: on the end-to-end scenario the skills component of the breakdown is
37.5, the keyword-overlap fallback value (3 of 8 job keywords matched), and
not the 200/3 that the claimed formula over the job-text skills {python,
react, docker} against the resume skills would give.  This theorem evaluates
the code at the failing input of the claim. -/
theorem C2_skill_component_eval :
    (calculate_score (extract_info resume1) job1).breakdown.skills = 75/2 ∧
    (75 : ℚ)/2 ≠ 200/3 := by
  constructor
  · rw [calc_bd_skills_eq]
    have hK : calculate_overlap (extract_keywords job1)
        (extract_keywords (extract_info resume1).raw_text) = 75/2 := by
      have h1 : ((extract_keywords job1).filter
          (fun w => (extract_keywords (extract_info resume1).raw_text).contains w)).length
          = 3 := by decide
      have h2 : (extract_keywords job1).length = 8 := by decide
      have h3 : ¬ (extract_keywords job1 = []) := by decide
      unfold calculate_overlap
      rw [if_neg h3, h1, h2]
      norm_num
    rw [hK]
    norm_num [pyRound1, rhe]
  · norm_num

/-- C3 counterexample: the required-years extraction on the job text
"requires 3-5 years" does not yield 3, refuting the claim at its own input. -/
theorem C3_counterexample : extract_years_req "requires 3-5 years" ≠ 3 := by decide

/-- C3 amended: on "requires 3-5 years" the years pattern captures only 5
(the 3 of 3-5 is not followed by the word years, so it is not captured), and
the extraction returns the minimum captured integer, here 5. -/
theorem C3_years_extraction_corrected :
    findYears "requires 3-5 years" = [5] ∧ extract_years_req "requires 3-5 years" = 5 := by
  decide

/-- C5 counterexample: called without an explicit threshold, the ranker drops
a job (the blank job scores 0, below the source default threshold of 50), so
it is false that every job is retained by default. -/
theorem C5_counterexample :
    match_jobs emptyResume [blankJob] = [] ∧ [blankJob] ≠ ([] : List JobRecord) := by
  constructor
  · have hs : matchScoreOf emptyResume blankJob = 0 := by
      show (calculate_score emptyResume (jobText blankJob)).total_score = 0
      rw [calc_total_eq]
      have h1 : extract_keywords (jobText blankJob) = [] := by decide
      have h3 : extract_years_req (lowerStr (jobText blankJob)) = 0 := by decide
      rw [h1, h3]
      show pyRound1 (calculate_overlap [] (extract_keywords emptyResume.raw_text) * (4/10) +
        calculate_overlap [] (extract_keywords emptyResume.raw_text) * (35/100) +
        (if 0 < 0 then _ else min 100 ((emptyResume.word_count : ℚ) / 500 * 100)) * (25/100)) = 0
      norm_num [calculate_overlap, emptyResume, pyRound1, rhe]
    unfold match_jobs
    rw [if_neg (by simp : ¬ ([blankJob] = ([] : List JobRecord)))]
    simp only [List.map]
    rw [hs]
    norm_num [List.filter, sortScoredDesc]
  · simp

/-- C5 amended: with no explicit threshold the default is 50, so the default
ranking retains exactly the scored rows whose match score is at least 50. -/
theorem C5_default_threshold_corrected (rd : ResumeData) (jobs : List JobRecord)
    (p : JobRecord × ℚ) :
    p ∈ match_jobs rd jobs ↔ p ∈ jobs.map (fun j => (j, matchScoreOf rd j)) ∧ 50 ≤ p.2 := by
  unfold match_jobs
  by_cases h : jobs = []
  · subst h; simp
  · rw [if_neg h, mem_sortScoredDesc, List.mem_filter]
    simp

/-- C6: calculate_score is total on the embedded domain and its total score
always lies between 0 and 100 inclusive. -/
theorem C6_score_total_bounded (rd : ResumeData) (jt : String) :
    0 ≤ (calculate_score rd jt).total_score ∧ (calculate_score rd jt).total_score ≤ 100 := by
  rw [calc_total_eq]
  have hk0 := calculate_overlap_nonneg (extract_keywords jt) (extract_keywords rd.raw_text)
  have hk1 := calculate_overlap_le_100 (extract_keywords jt) (extract_keywords rd.raw_text)
  have he := exp_expr_bounds (extract_years_req (lowerStr jt)) rd.years_experience rd.word_count
  exact total_bounds_aux _ _ _ hk0 hk1 hk0 hk1 he.1 he.2

/-- C7: for every resume text the built profile has years_experience below 40
and word_count equal to the number of whitespace-delimited tokens. -/
theorem C7_profile_invariants (text : String) :
    (extract_info text).years_experience < 40 ∧
    (extract_info text).word_count = (pySplit text).length := by
  constructor
  · show ((findYears (lowerStr text)).filter (fun y => decide (y < 40))).foldl Nat.max 0 < 40
    apply foldlMaxLt _ _ (by norm_num)
    intro x hx
    exact of_decide_eq_true (List.mem_filter.mp hx).2
  · rfl

/-- C8 counterexample: scoring resume8 against job8 gives total score 18.8
with rounded breakdown 6.2, 6.2, 56.2, and 18.8 differs from the weighted sum
18.7 of the rounded breakdown by exactly 0.1, so the strict bound of the
claim fails. -/
theorem C8_counterexample :
    ¬ |(calculate_score resume8 job8).total_score -
        ((calculate_score resume8 job8).breakdown.keywords * (4/10) +
         (calculate_score resume8 job8).breakdown.skills * (35/100) +
         (calculate_score resume8 job8).breakdown.experience * (25/100))| < 1/10 := by
  have hK : calculate_overlap (extract_keywords job8) (extract_keywords resume8.raw_text)
      = 25/4 := by
    have h1 : ((extract_keywords job8).filter
        (fun w => (extract_keywords resume8.raw_text).contains w)).length = 1 := by decide
    have h2 : (extract_keywords job8).length = 16 := by decide
    have h3 : ¬ (extract_keywords job8 = []) := by decide
    unfold calculate_overlap
    rw [if_neg h3, h1, h2]
    norm_num
  have hy : extract_years_req (lowerStr job8) = 16 := by decide
  have hry : resume8.years_experience = 9 := by decide
  rw [calc_total_eq, calc_bd_keywords_eq, calc_bd_skills_eq, calc_bd_exp_eq, hK, hy, hry]
  rw [abs_sub_lt_iff]
  intro hcon
  have hc1 := hcon.1
  norm_num [pyRound1, rhe] at hc1

/-- C8 amended: for every profile and job text the total score differs from
the weighted sum of the rounded breakdown components by at most 0.1, the
rounding tolerance actually guaranteed (and attained) by the code. -/
theorem C8_weighted_sum_tolerance (rd : ResumeData) (jt : String) :
    |(calculate_score rd jt).total_score -
      ((calculate_score rd jt).breakdown.keywords * (4/10) +
       (calculate_score rd jt).breakdown.skills * (35/100) +
       (calculate_score rd jt).breakdown.experience * (25/100))| ≤ 1/10 := by
  rw [calc_total_eq, calc_bd_keywords_eq, calc_bd_skills_eq, calc_bd_exp_eq]
  exact weighted_round_close _ _ _

/-- C9: the resume text consisting exactly of the vocabulary entry c++ yields
a profile with no skills at all: the boundary assertion after the final plus
sign requires a following word character, so the entry is not detected.  This
theorem evaluates the code at the failing input of the claim. -/
theorem C9_cpp_skill_eval : (extract_info "c++").skills = [] := by decide

/-- C10: for every profile and job text the returned matched_skills and
missing_skills are empty and the skills breakdown equals the keywords
breakdown, because the job-text skill extraction returns the empty set
unconditionally. -/
theorem C10_placeholder_skill_behavior (rd : ResumeData) (jt : String) :
    (calculate_score rd jt).matched_skills = [] ∧
    (calculate_score rd jt).missing_skills = [] ∧
    (calculate_score rd jt).breakdown.skills = (calculate_score rd jt).breakdown.keywords := by
  refine ⟨?_, calc_missing_eq rd jt, ?_⟩
  · rw [calc_matched_eq]
    exact filterFalseNil _
  · rw [calc_bd_skills_eq, calc_bd_keywords_eq]
